import Mathlib

/-!
Verification of the API binding layer and the streaming envelope protocol of
`src/lib/llm/src/types.rs`, together with the `Annotated` multiplexing
envelope and the engine contracts it re-exports.

The binding layer is pure type-level code: each declaration is a Rust
`type` alias fixing the generic parameters of `UnaryEngine` /
`ServerStreamingEngine` to a concrete (Request, Response) pair.  We embed
the Rust type expressions occurring in that file as an inductive `RustTy`
and each alias as a definition, so that questions about which engine shapes
exist for which API become decidable facts about a finite list of aliases.
-/

namespace Dynamo

/-- The Rust type expressions appearing in `src/lib/llm/src/types.rs`:
the six concrete request/response types imported from `protocols`, the
`Annotated` envelope constructor, and the two generic engine contracts
from `dynamo_runtime::pipeline`. -/
inductive RustTy where
  | nvCreateCompletionRequest
  | nvCreateCompletionResponse
  | nvCreateChatCompletionRequest
  | nvCreateChatCompletionResponse
  | nvCreateChatCompletionStreamResponse
  | nvCreateEmbeddingRequest
  | nvCreateEmbeddingResponse
  | annotated (t : RustTy)
  | unaryEngine (req res : RustTy)
  | serverStreamingEngine (req item : RustTy)
deriving DecidableEq, Repr

open RustTy

/-- `type OpenAICompletionsUnaryEngine =
    UnaryEngine<NvCreateCompletionRequest, NvCreateCompletionResponse>` -/
def OpenAICompletionsUnaryEngine : RustTy :=
  unaryEngine nvCreateCompletionRequest nvCreateCompletionResponse

/-- `type OpenAICompletionsStreamingEngine =
    ServerStreamingEngine<NvCreateCompletionRequest, Annotated<NvCreateCompletionResponse>>` -/
def OpenAICompletionsStreamingEngine : RustTy :=
  serverStreamingEngine nvCreateCompletionRequest (annotated nvCreateCompletionResponse)

/-- `type OpenAIChatCompletionsUnaryEngine =
    UnaryEngine<NvCreateChatCompletionRequest, NvCreateChatCompletionResponse>` -/
def OpenAIChatCompletionsUnaryEngine : RustTy :=
  unaryEngine nvCreateChatCompletionRequest nvCreateChatCompletionResponse

/-- `type OpenAIChatCompletionsStreamingEngine =
    ServerStreamingEngine<NvCreateChatCompletionRequest, Annotated<NvCreateChatCompletionStreamResponse>>` -/
def OpenAIChatCompletionsStreamingEngine : RustTy :=
  serverStreamingEngine nvCreateChatCompletionRequest
    (annotated nvCreateChatCompletionStreamResponse)

/-- `type OpenAIEmbeddingsUnaryEngine =
    UnaryEngine<NvCreateEmbeddingRequest, NvCreateEmbeddingResponse>` -/
def OpenAIEmbeddingsUnaryEngine : RustTy :=
  unaryEngine nvCreateEmbeddingRequest nvCreateEmbeddingResponse

/-- `type OpenAIEmbeddingsStreamingEngine =
    ServerStreamingEngine<NvCreateEmbeddingRequest, Annotated<NvCreateEmbeddingResponse>>` -/
def OpenAIEmbeddingsStreamingEngine : RustTy :=
  serverStreamingEngine nvCreateEmbeddingRequest (annotated nvCreateEmbeddingResponse)

/-- A named `type` alias declaration of the binding layer. -/
structure TypeAlias where
  name : String
  rhs : RustTy
deriving DecidableEq, Repr

/-- The complete list of type aliases declared in
`src/lib/llm/src/types.rs`, in source order.  The file declares nothing
else (besides re-exports), so "a concrete engine type is provided" means
membership in this list. -/
def typesRsAliases : List TypeAlias :=
  [ ⟨"OpenAICompletionsUnaryEngine", OpenAICompletionsUnaryEngine⟩,
    ⟨"OpenAICompletionsStreamingEngine", OpenAICompletionsStreamingEngine⟩,
    ⟨"OpenAIChatCompletionsUnaryEngine", OpenAIChatCompletionsUnaryEngine⟩,
    ⟨"OpenAIChatCompletionsStreamingEngine", OpenAIChatCompletionsStreamingEngine⟩,
    ⟨"OpenAIEmbeddingsUnaryEngine", OpenAIEmbeddingsUnaryEngine⟩,
    ⟨"OpenAIEmbeddingsStreamingEngine", OpenAIEmbeddingsStreamingEngine⟩ ]

/-- The generic parameters of a `UnaryEngine<Req, Res>` instantiation. -/
def unaryParams : RustTy → Option (RustTy × RustTy)
  | unaryEngine req res => some (req, res)
  | _ => none

/-- The generic parameters of a `ServerStreamingEngine<Req, Item>`
instantiation. -/
def streamingParams : RustTy → Option (RustTy × RustTy)
  | serverStreamingEngine req item => some (req, item)
  | _ => none

/-- The payload type under an `Annotated<_>` wrapper, when the type is one. -/
def annotatedPayload : RustTy → Option RustTy
  | annotated t => some t
  | _ => none

/-- Whether the binding layer provides a unary engine alias for the given
(Request, Response) pair. -/
def hasUnaryAlias (req res : RustTy) : Bool :=
  typesRsAliases.any fun a => a.rhs == unaryEngine req res

/-- Whether the binding layer provides a server-streaming engine alias
with the given request type. -/
def hasStreamingAliasFor (req : RustTy) : Bool :=
  typesRsAliases.any fun a =>
    match streamingParams a.rhs with
    | some (r, _) => r == req
    | none => false

/-- Claim C1 as stated by the spec, over the declared aliases: Embeddings
has a unary engine alias and no server-streaming engine alias. -/
def embeddingsUnaryOnly : Bool :=
  hasUnaryAlias nvCreateEmbeddingRequest nvCreateEmbeddingResponse &&
  !hasStreamingAliasFor nvCreateEmbeddingRequest

/-- Claim C2 as stated by the spec, over the declared aliases: every
server-streaming alias streams `Annotated<Res>` where `Res` is the same
response type some unary alias with the same request type returns. -/
def streamingReusesUnaryResponse : Bool :=
  typesRsAliases.all fun a =>
    match streamingParams a.rhs with
    | none => true
    | some (req, item) =>
      match annotatedPayload item with
      | none => false
      | some res => hasUnaryAlias req res

/-- Modelled from the spec: the `Annotated<T>` envelope defined in the
`protocols` module (re-exported by `src/lib/llm/src/types.rs`, definition
not under `src/`).  Fields per spec §3: optional payload `data`, optional
control-signal name `event`, diagnostic `comment` sequence (absence is the
empty sequence), optional correlation `id`. -/
structure Annotated (T : Type) where
  data : Option T
  event : Option String
  comment : List String
  id : Option String
deriving DecidableEq, Repr

/-- Modelled from the spec: validated construction of an `Annotated`
envelope.  Spec §3: "At least one of `data` or `event` must be present; an
envelope with neither is invalid and must be rejected at construction." -/
def Annotated.make (data : Option T) (event : Option String)
    (comment : List String) (id : Option String) : Option (Annotated T) :=
  if data.isNone && event.isNone then none
  else some ⟨data, event, comment, id⟩

/-- Modelled from the spec: a terminal envelope is one whose `event`
indicates an error (spec §3, §4.2: terminal `event`, e.g. "error"). -/
def Annotated.isTerminal (a : Annotated T) : Bool :=
  a.event == some "error"

/-- Modelled from the spec: a plain payload chunk emitted mid-stream —
`data` set, no control signal (spec §8 Scenario A: items with `data` set
and `event` unset). -/
def dataItem (t : T) : Annotated T :=
  ⟨some t, none, [], none⟩

/-- Modelled from the spec: the single terminal error envelope a streaming
engine emits on mid-stream failure — `event = "error"` with the
human-readable explanation carried in `comment` (spec §4.3, §7). -/
def errorItem (T : Type) (msg : String) : Annotated T :=
  ⟨none, some "error", [msg], none⟩

/-- Modelled from the spec: the outcome of the backend generation run that
a server-streaming engine drains — it produces some chunks and then either
finishes naturally or fails with a message (spec §4.2 Termination, §8
Scenarios A/B).  The backend itself is an external collaborator, absent
from `src/`. -/
inductive BackendOutcome (T : Type) where
  | finished (chunks : List T)
  | failed (chunks : List T) (msg : String)
deriving DecidableEq, Repr

/-- Modelled from the spec: the sequence of `Annotated` items a
server-streaming engine produces for a backend run (spec §4.2, §7): each
chunk becomes a `data` envelope in generation order; natural exhaustion
ends the sequence; a failure appends exactly one terminal error envelope
and the sequence closes there. -/
def streamOf : BackendOutcome T → List (Annotated T)
  | .finished chunks => chunks.map dataItem
  | .failed chunks msg => chunks.map dataItem ++ [errorItem T msg]

/-- Modelled from the spec: one line of the event-stream wire framing of a
streamed item (spec §6): an optional control line carrying the `event`
name, a payload line carrying the serialized `data`, comment lines, an
`id` correlation line (spec §4.3 requires `id` to survive the
serialization boundary losslessly), and the blank line terminating the
item. -/
inductive WireLine where
  | eventLine (name : String)
  | dataLine (payload : String)
  | commentLine (text : String)
  | idLine (ident : String)
  | blank
deriving DecidableEq, Repr

/-- Modelled from the spec: encoding of an `Annotated` item to its wire
framing (spec §6): control line present iff `event` is set, payload line
present iff `data` is set (its payload serialized by `enc`), one comment
line per `comment` entry, the `id` line present iff `id` is set, and a
terminating blank line. -/
def encodeWire (enc : T → String) (a : Annotated T) : List WireLine :=
  (match a.id with | some i => [WireLine.idLine i] | none => []) ++
  (match a.event with | some e => [WireLine.eventLine e] | none => []) ++
  (match a.data with | some d => [WireLine.dataLine (enc d)] | none => []) ++
  a.comment.map WireLine.commentLine ++
  [WireLine.blank]

/-- Modelled from the spec: decoding of a wire-framed item back into an
`Annotated` envelope, accumulating the fields seen so far until the blank
terminator; an undecodable payload or a missing terminator fails. -/
def decodeWireAux (dec : String → Option T) :
    List WireLine → Option T → Option String → List String → Option String →
    Option (Annotated T)
  | [], _, _, _, _ => none
  | WireLine.blank :: _, d, e, cs, i => some ⟨d, e, cs, i⟩
  | WireLine.idLine v :: rest, d, e, cs, _ => decodeWireAux dec rest d e cs (some v)
  | WireLine.eventLine v :: rest, d, _, cs, i => decodeWireAux dec rest d (some v) cs i
  | WireLine.dataLine v :: rest, _, e, cs, i =>
    match dec v with
    | some t => decodeWireAux dec rest (some t) e cs i
    | none => none
  | WireLine.commentLine v :: rest, d, e, cs, i =>
    decodeWireAux dec rest d e (cs ++ [v]) i

/-- Modelled from the spec: decoding entry point — no fields seen yet. -/
def decodeWire (dec : String → Option T) (lines : List WireLine) :
    Option (Annotated T) :=
  decodeWireAux dec lines none none [] none

/-- Modelled from the spec: one consumer pull on a produced sequence
(spec §4.2 Backpressure, §5): it either yields the next item in generation
order together with the rest of the sequence, or observes the close. -/
def pull : List α → Option (α × List α)
  | [] => none
  | a :: rest => some (a, rest)

/-- Modelled from the spec: a consumer driving a produced sequence by
repeated pulls until the sequence closes or its fuel (the number of pulls
it is willing to make) runs out, recording the items it observes in
observation order. -/
def consume (fuel : Nat) (s : List α) : List α :=
  match fuel with
  | 0 => []
  | fuel + 1 =>
    match pull s with
    | none => []
    | some (a, rest) => a :: consume fuel rest

/-- The shape actually realized by the binding layer for a streamed item:
it is an `Annotated<P>` envelope whose payload `P` is either the response
type of a unary alias with the same request type (Completions,
Embeddings), or the dedicated chat stream-response type for the Chat
Completions request. -/
def streamItemWellFormed (req item : RustTy) : Bool :=
  match annotatedPayload item with
  | some p =>
    hasUnaryAlias req p ||
      (req == nvCreateChatCompletionRequest &&
        p == nvCreateChatCompletionStreamResponse)
  | none => false

/-!
## Claim theorems
-/

/-- C1, counterexample: the spec states that Embeddings is bound only to
the unary contract, with no concrete server-streaming engine type; but
`src/lib/llm/src/types.rs` declares `OpenAIEmbeddingsStreamingEngine =
ServerStreamingEngine<NvCreateEmbeddingRequest,
Annotated<NvCreateEmbeddingResponse>>`, so the claim is false. -/
theorem c1_embeddings_streaming_alias_exists :
    embeddingsUnaryOnly = false ∧
    (⟨"OpenAIEmbeddingsStreamingEngine", OpenAIEmbeddingsStreamingEngine⟩ :
      TypeAlias) ∈ typesRsAliases ∧
    streamingParams OpenAIEmbeddingsStreamingEngine =
      some (nvCreateEmbeddingRequest, annotated nvCreateEmbeddingResponse) := by
  decide

/-- C1, amended: Embeddings is bound to both contracts — the binding layer
provides both a concrete unary engine type and a concrete server-streaming
engine type for the Embeddings (Request, Response) pair. -/
theorem embeddings_bound_to_both_contracts :
    (⟨"OpenAIEmbeddingsUnaryEngine", OpenAIEmbeddingsUnaryEngine⟩ :
      TypeAlias) ∈ typesRsAliases ∧
    (⟨"OpenAIEmbeddingsStreamingEngine", OpenAIEmbeddingsStreamingEngine⟩ :
      TypeAlias) ∈ typesRsAliases ∧
    OpenAIEmbeddingsUnaryEngine =
      unaryEngine nvCreateEmbeddingRequest nvCreateEmbeddingResponse ∧
    OpenAIEmbeddingsStreamingEngine =
      serverStreamingEngine nvCreateEmbeddingRequest
        (annotated nvCreateEmbeddingResponse) := by
  decide

/-- C2, counterexample: the spec states that every server-streaming engine
streams `Annotated<Response>` with the same `Response` as the API's unary
contract; but the Chat Completions streaming alias streams
`Annotated<NvCreateChatCompletionStreamResponse>`, and no unary alias for
the chat request type returns `NvCreateChatCompletionStreamResponse`. -/
theorem c2_chat_streaming_payload_not_unary_response :
    streamingReusesUnaryResponse = false ∧
    (⟨"OpenAIChatCompletionsStreamingEngine",
        OpenAIChatCompletionsStreamingEngine⟩ : TypeAlias) ∈ typesRsAliases ∧
    streamingParams OpenAIChatCompletionsStreamingEngine =
      some (nvCreateChatCompletionRequest,
        annotated nvCreateChatCompletionStreamResponse) ∧
    hasUnaryAlias nvCreateChatCompletionRequest
      nvCreateChatCompletionStreamResponse = false := by
  decide

/-- C2, amended: for every API bound to the server-streaming contract, the
streamed items are `Annotated` envelopes around a payload type; for
Completions and Embeddings that payload is exactly the response type of the
unary alias with the same request type, while for Chat Completions it is
the dedicated stream-response type `NvCreateChatCompletionStreamResponse`. -/
theorem streaming_items_are_annotated_payloads (a : TypeAlias)
    (ha : a ∈ typesRsAliases) (req item : RustTy)
    (h : streamingParams a.rhs = some (req, item)) :
    streamItemWellFormed req item = true := by
  fin_cases ha <;>
    simp_all [streamingParams, OpenAICompletionsUnaryEngine,
      OpenAICompletionsStreamingEngine, OpenAIChatCompletionsUnaryEngine,
      OpenAIChatCompletionsStreamingEngine, OpenAIEmbeddingsUnaryEngine,
      OpenAIEmbeddingsStreamingEngine] <;>
  first
  | rfl
  | (obtain ⟨rfl, rfl⟩ := h; decide)

/-- C2, witness: the amended theorem applied to the Completions streaming
alias. -/
theorem streaming_items_are_annotated_payloads_witness :
    streamItemWellFormed nvCreateCompletionRequest
      (annotated nvCreateCompletionResponse) = true :=
  streaming_items_are_annotated_payloads
    ⟨"OpenAICompletionsStreamingEngine", OpenAICompletionsStreamingEngine⟩
    (by decide) nvCreateCompletionRequest (annotated nvCreateCompletionResponse)
    (by decide)

/-- C3: Completions and Chat Completions are each bound to both execution
shapes — for each of the two APIs, a concrete unary engine alias and a
concrete server-streaming engine alias are declared, and each alias is
exactly the generic contract with its parameters fixed to the API's
concrete request/response types. -/
theorem completions_and_chat_bound_to_both_contracts :
    (⟨"OpenAICompletionsUnaryEngine", OpenAICompletionsUnaryEngine⟩ :
      TypeAlias) ∈ typesRsAliases ∧
    (⟨"OpenAICompletionsStreamingEngine", OpenAICompletionsStreamingEngine⟩ :
      TypeAlias) ∈ typesRsAliases ∧
    (⟨"OpenAIChatCompletionsUnaryEngine", OpenAIChatCompletionsUnaryEngine⟩ :
      TypeAlias) ∈ typesRsAliases ∧
    (⟨"OpenAIChatCompletionsStreamingEngine",
        OpenAIChatCompletionsStreamingEngine⟩ : TypeAlias) ∈ typesRsAliases ∧
    OpenAICompletionsUnaryEngine =
      unaryEngine nvCreateCompletionRequest nvCreateCompletionResponse ∧
    OpenAICompletionsStreamingEngine =
      serverStreamingEngine nvCreateCompletionRequest
        (annotated nvCreateCompletionResponse) ∧
    OpenAIChatCompletionsUnaryEngine =
      unaryEngine nvCreateChatCompletionRequest nvCreateChatCompletionResponse ∧
    OpenAIChatCompletionsStreamingEngine =
      serverStreamingEngine nvCreateChatCompletionRequest
        (annotated nvCreateChatCompletionStreamResponse) := by
  decide

/-- C4: for every unary engine alias the binding layer declares, the
success value type is the raw response type, never an `Annotated<_>`
wrapper. -/
theorem unary_success_value_is_raw_response (a : TypeAlias)
    (ha : a ∈ typesRsAliases) (req res : RustTy)
    (h : unaryParams a.rhs = some (req, res)) :
    annotatedPayload res = none := by
  fin_cases ha <;>
    simp_all [unaryParams, OpenAICompletionsUnaryEngine,
      OpenAICompletionsStreamingEngine, OpenAIChatCompletionsUnaryEngine,
      OpenAIChatCompletionsStreamingEngine, OpenAIEmbeddingsUnaryEngine,
      OpenAIEmbeddingsStreamingEngine] <;>
  first
  | rfl
  | (obtain ⟨rfl, rfl⟩ := h; decide)

/-- C4, witness: the theorem applied to the Embeddings unary alias. -/
theorem unary_success_value_is_raw_response_witness :
    annotatedPayload nvCreateEmbeddingResponse = none :=
  unary_success_value_is_raw_response
    ⟨"OpenAIEmbeddingsUnaryEngine", OpenAIEmbeddingsUnaryEngine⟩ (by decide)
    nvCreateEmbeddingRequest nvCreateEmbeddingResponse (by decide)

/-- C5: constructing an `Annotated` envelope with neither `data` nor
`event` present fails validation for every payload type, and every
envelope that construction does produce has `data` or `event` present. -/
theorem annotated_rejects_empty_envelope (T : Type) (comment : List String)
    (i : Option String) :
    (Annotated.make none none comment i : Option (Annotated T)) = none ∧
    ∀ (d : Option T) (e : Option String) (a : Annotated T),
      Annotated.make d e comment i = some a →
        (a.data.isSome || a.event.isSome) = true := by
  refine ⟨rfl, ?_⟩
  intro d e a h
  cases d <;> cases e <;> simp_all [Annotated.make] <;> subst h <;> simp

/-- C5, witness: rejection and acceptance at concrete inputs over `Nat`. -/
theorem annotated_rejects_empty_envelope_witness :
    (Annotated.make none none ["diag"] none : Option (Annotated Nat)) = none ∧
    ((⟨some 7, none, ["diag"], none⟩ : Annotated Nat).data.isSome ||
      (⟨some 7, none, ["diag"], none⟩ : Annotated Nat).event.isSome) = true :=
  ⟨(annotated_rejects_empty_envelope Nat ["diag"] none).1,
    (annotated_rejects_empty_envelope Nat ["diag"] none).2 (some 7) none
      ⟨some 7, none, ["diag"], none⟩ (by decide)⟩

/-- C6: in every sequence a server-streaming engine produces, every item
other than the last is non-terminal — hence once a terminal item is
emitted, no further items are observable: a terminal item is always the
last item of the sequence. -/
theorem terminal_item_is_last (o : BackendOutcome T) (a : Annotated T)
    (ha : a ∈ (streamOf o).dropLast) : a.isTerminal = false := by
  have key : ∀ cs : List T, ∀ b ∈ cs.map dataItem,
      Annotated.isTerminal b = false := by
    intro cs b hb
    obtain ⟨c, _, rfl⟩ := List.mem_map.1 hb
    rfl
  cases o with
  | finished cs =>
    exact key cs a ((List.dropLast_sublist _).subset ha)
  | failed cs msg =>
    refine key cs a ?_
    have hdrop : (streamOf (BackendOutcome.failed cs msg)).dropLast =
        cs.map dataItem := by
      simp [streamOf]
    rwa [hdrop] at ha

/-- C6, witness: the data item preceding the terminal error item of a
concrete failed stream is non-terminal. -/
theorem terminal_item_is_last_witness :
    Annotated.isTerminal (dataItem 5) = false :=
  terminal_item_is_last (BackendOutcome.failed [5] "boom") (dataItem 5)
    (by decide)

/-- No data chunk counts as terminal: auxiliary count for C7. -/
theorem countP_terminal_dataItems (cs : List T) :
    (cs.map dataItem).countP (fun a => a.isTerminal) = 0 := by
  induction cs with
  | nil => rfl
  | cons c rest ih => simp [List.countP_cons, ih, dataItem, Annotated.isTerminal]

/-- C7: a mid-stream failure after producing `cs` yields the stream of the
natural run followed by exactly one terminal item: the whole prefix of
previously emitted items is preserved untruncated, the terminal count is
exactly one, the last item is the error envelope, and that envelope
carries `event = "error"` with a non-empty explanatory comment. -/
theorem midstream_failure_single_terminal_error (cs : List T) (msg : String) :
    streamOf (BackendOutcome.failed cs msg) =
      streamOf (BackendOutcome.finished cs) ++ [errorItem T msg] ∧
    (streamOf (BackendOutcome.failed cs msg)).take cs.length =
      streamOf (BackendOutcome.finished cs) ∧
    (streamOf (BackendOutcome.failed cs msg)).countP
      (fun a => a.isTerminal) = 1 ∧
    (streamOf (BackendOutcome.failed cs msg)).getLast? =
      some (errorItem T msg) ∧
    (errorItem T msg).event = some "error" ∧
    (errorItem T msg).comment.length = 1 := by
  refine ⟨rfl, ?_, ?_, ?_, rfl, rfl⟩
  · simp [streamOf, List.take_append]
  · simp [streamOf, List.countP_append, countP_terminal_dataItems,
      List.countP_cons, errorItem, Annotated.isTerminal]
    intro a _
    simp [dataItem]
  · simp [streamOf]

/-- C9: a consumer that keeps pulling until the sequence closes observes
exactly the items the producer emitted, in emission order, with no
duplication and no reordering. -/
theorem consumer_observes_emitted_items (s : List α) (fuel : Nat)
    (h : s.length ≤ fuel) : consume fuel s = s := by
  induction s generalizing fuel with
  | nil => cases fuel <;> rfl
  | cons a rest ih =>
    cases fuel with
    | zero => simp at h
    | succ fuel =>
      have hrest : rest.length ≤ fuel := by
        simp at h
        omega
      simp [consume, pull, ih fuel hrest]

/-- C9, witness: a two-item sequence consumed with enough pulls. -/
theorem consumer_observes_emitted_items_witness :
    consume 3 [10, 20] = [10, 20] :=
  consumer_observes_emitted_items [10, 20] 3 (by decide)

/-- C10: the Chat Completions streaming alias carries a payload type
distinct from its unary response type, while the Completions and
Embeddings streaming aliases reuse exactly their unary response types as
the streamed payload. -/
theorem chat_stream_payload_distinct_others_reuse :
    (nvCreateChatCompletionStreamResponse ==
      nvCreateChatCompletionResponse) = false ∧
    streamingParams OpenAIChatCompletionsStreamingEngine =
      some (nvCreateChatCompletionRequest,
        annotated nvCreateChatCompletionStreamResponse) ∧
    unaryParams OpenAIChatCompletionsUnaryEngine =
      some (nvCreateChatCompletionRequest, nvCreateChatCompletionResponse) ∧
    streamingParams OpenAICompletionsStreamingEngine =
      some (nvCreateCompletionRequest, annotated nvCreateCompletionResponse) ∧
    unaryParams OpenAICompletionsUnaryEngine =
      some (nvCreateCompletionRequest, nvCreateCompletionResponse) ∧
    streamingParams OpenAIEmbeddingsStreamingEngine =
      some (nvCreateEmbeddingRequest, annotated nvCreateEmbeddingResponse) ∧
    unaryParams OpenAIEmbeddingsUnaryEngine =
      some (nvCreateEmbeddingRequest, nvCreateEmbeddingResponse) := by
  decide

/-- Decoding a run of comment lines followed by the blank terminator
appends the comments, in order, to those accumulated so far: auxiliary
step for C8. -/
theorem decodeWireAux_comment_run (dec : String → Option T)
    (cs acc : List String) (d : Option T) (e : Option String)
    (i : Option String) :
    decodeWireAux dec (cs.map WireLine.commentLine ++ [WireLine.blank])
      d e acc i = some ⟨d, e, acc ++ cs, i⟩ := by
  induction cs generalizing acc with
  | nil => simp [decodeWireAux]
  | cons c rest ih => simp [decodeWireAux, ih]

/-- C8: round-trip — for every `Annotated` envelope, encoding it to the
wire framing and decoding the result back yields the same envelope, with
the `data`, `event`, `comment` and `id` fields each preserved and kept
distinguishable, provided the payload serializer and deserializer agree. -/
theorem wire_roundtrip (enc : T → String) (dec : String → Option T)
    (hdec : ∀ t, dec (enc t) = some t) (a : Annotated T) :
    decodeWire dec (encodeWire enc a) = some a := by
  obtain ⟨d, e, cs, i⟩ := a
  cases i <;> cases e <;> cases d <;>
    simp [encodeWire, decodeWire, decodeWireAux, hdec, decodeWireAux_comment_run]

/-- C8, witness: round-trip of a concrete envelope over a concrete
payload codec. -/
theorem wire_roundtrip_witness :
    decodeWire (fun s => if s = "x" then some () else none)
      (encodeWire (fun _ => "x")
        ⟨some (), some "done", ["note one", "note two"], some "42"⟩) =
      some ⟨some (), some "done", ["note one", "note two"], some "42"⟩ :=
  wire_roundtrip (fun _ => "x") (fun s => if s = "x" then some () else none)
    (fun t => by simp) ⟨some (), some "done", ["note one", "note two"], some "42"⟩

end Dynamo
